import Mathlib

/-!
Verification development for the snapspend-lite receipt pipeline.

The embedded code is the extraction-and-normalization pipeline of the
repository backend:
- backend/receipts/services.py : extract_receipt_data, and its inner helper
  normalize_currency (lines 181-210);
- backend/receipts/views.py : ReceiptUploadView.post (lines 45-132), the
  batch upload loop that maps a raw extraction payload onto Receipt and
  ReceiptItem rows;
- backend/receipts/models.py : the model-level defaults of Receipt and
  ReceiptItem used when a row is created before extraction runs.

JSON numbers are embedded as rationals, JSON strings as Lean strings, and
every nullable field as an Option. Python truthiness tests on strings and
numbers are embedded explicitly (pyOrStr, pyOrQ, pyOrList). The Python
standard-library date parsers that the view delegates to are embedded as
executable functions restricted to the grammar the view exercises, and are
documented at their definitions.
-/

namespace SnapSpend

/-! ## Python string primitives -/

/-- Model of Python str.upper, restricted to ASCII case mapping
(every input relevant to the pipeline is ASCII). -/
def pyUpper (s : String) : String :=
  String.mk (s.data.map Char.toUpper)

/-- Characters removed by Python str.strip with no argument. -/
def isPySpace (c : Char) : Bool :=
  c = ' ' || c = '\t' || c = '\n' || c = '\r' || c = '\x0b' || c = '\x0c'

/-- Model of Python str.strip: remove leading and trailing whitespace. -/
def pyStrip (s : String) : String :=
  String.mk (((s.data.dropWhile isPySpace).reverse.dropWhile isPySpace).reverse)

/-- Python `x or default` on an optional string: None and the empty string
are falsy and yield the default. -/
def pyOrStr (v : Option String) (dflt : String) : String :=
  match v with
  | none => dflt
  | some s => if s = "" then dflt else s

/-- Python `x or default` on an optional JSON number: None and zero are
falsy and yield the default. -/
def pyOrQ (v : Option ℚ) (dflt : ℚ) : ℚ :=
  match v with
  | none => dflt
  | some q => if q = 0 then dflt else q

/-- Python `x or []` on an optional list: None and the empty list are falsy
and both yield the empty list. -/
def pyOrList (v : Option (List α)) : List α :=
  match v with
  | none => []
  | some l => l

/-! ## Currency normalization (services.py, normalize_currency) -/

/-- The allowed currency codes of services.py line 192. -/
def ALLOWED : List String := ["PHP", "USD", "EUR", "JPY", "GBP"]

/-- The known malformed variants mapped to PHP, services.py lines 195-203. -/
def MISTAKES : List String := ["PESO", "PH", "PHP.", "PHPH", "NV", "PHP$", "₱"]

/-- services.py lines 181-210: normalize any model output to a safe,
supported currency; default to PHP if anything looks off. The argument is
the raw payload value of the currency key (absent or null embeds as none). -/
def normalize_currency (cur : Option String) : String :=
  match cur with
  | none => "PHP"
  | some s =>
    if s = "" then "PHP"
    else if pyStrip (pyUpper s) ∈ MISTAKES then "PHP"
    else if pyStrip (pyUpper s) ∈ ALLOWED then pyStrip (pyUpper s)
    else "PHP"

lemma normalize_currency_mem (cur : Option String) :
    normalize_currency cur ∈ ALLOWED := by
  cases cur with
  | none => decide
  | some s =>
    simp only [normalize_currency]
    split_ifs with h1 h2 h3
    · decide
    · decide
    · exact h3
    · decide

lemma allowed_ne_empty {s : String} (h : s ∈ ALLOWED) : s ≠ "" := by
  fin_cases h <;> decide

lemma normalize_currency_ne_empty (cur : Option String) :
    normalize_currency cur ≠ "" :=
  allowed_ne_empty (normalize_currency_mem cur)

/-! ## Dates (views.py lines 81-91 and the stdlib parsers they call) -/

/-- A calendar date as produced by the Python date() accessor. -/
structure PyDate where
  year : Nat
  month : Nat
  day : Nat
deriving DecidableEq, Repr

/-- A Python datetime value, as far as the pipeline observes it. -/
structure PyDateTime where
  date : PyDate
  hour : Nat
  minute : Nat
  second : Nat
deriving DecidableEq, Repr

/-- Split a character list at every occurrence of the separator. -/
def splitOnCharAux (sep : Char) : List Char → List Char → List (List Char)
  | [], acc => [acc.reverse]
  | c :: rest, acc =>
    if c = sep then acc.reverse :: splitOnCharAux sep rest []
    else splitOnCharAux sep rest (c :: acc)

def splitOnChar (sep : Char) (l : List Char) : List (List Char) :=
  splitOnCharAux sep l []

def allDigits (l : List Char) : Bool := l.all Char.isDigit

def digitsToNat (l : List Char) : Nat :=
  l.foldl (fun n c => n * 10 + (c.toNat - 48)) 0

def isLeapYear (y : Nat) : Bool :=
  (y % 4 = 0 && y % 100 ≠ 0) || y % 400 = 0

def daysInMonth (y m : Nat) : Nat :=
  if m = 2 then (if isLeapYear y then 29 else 28)
  else if m = 4 || m = 6 || m = 9 || m = 11 then 30
  else 31

def validDate (y m d : Nat) : Bool :=
  1 ≤ y && y ≤ 9999 && 1 ≤ m && m ≤ 12 && 1 ≤ d && d ≤ daysInMonth y m

/-- Parse a zero-padded YYYY-MM-DD character sequence as a calendar date,
validating ranges and month lengths. -/
def parseYMD (l : List Char) : Option PyDate :=
  match splitOnChar '-' l with
  | [y, m, d] =>
    if y.length = 4 && m.length = 2 && d.length = 2
        && allDigits y && allDigits m && allDigits d then
      let yn := digitsToNat y
      let mn := digitsToNat m
      let dn := digitsToNat d
      if validDate yn mn dn then some ⟨yn, mn, dn⟩ else none
    else none
  | _ => none

/-- Parse a zero-padded HH:MM:SS character sequence. -/
def parseHMS (l : List Char) : Option (Nat × Nat × Nat) :=
  match splitOnChar ':' l with
  | [h, m, s] =>
    if h.length = 2 && m.length = 2 && s.length = 2
        && allDigits h && allDigits m && allDigits s then
      let hn := digitsToNat h
      let mn := digitsToNat m
      let sn := digitsToNat s
      if hn ≤ 23 && mn ≤ 59 && sn ≤ 59 then some (hn, mn, sn) else none
    else none
  | _ => none

/-- Model of the stdlib datetime.fromisoformat called at views.py line 84,
restricted to the grammar the pipeline exercises: a bare YYYY-MM-DD date, or
a YYYY-MM-DD date, one separator character, and an HH:MM:SS time. Any other
shape fails (in Python: raises ValueError, caught at line 85). -/
def fromisoformat (s : String) : Option PyDateTime :=
  let l := s.data
  if l.length = 10 then
    (parseYMD l).map (fun d => ⟨d, 0, 0, 0⟩)
  else if l.length = 19 then
    match parseYMD (l.take 10), parseHMS (l.drop 11) with
    | some d, some (h, m, sec) => some ⟨d, h, m, sec⟩
    | _, _ => none
  else none

/-- Model of the stdlib datetime.strptime with format YYYY-MM-DD called at
views.py line 87: dash-separated numeric fields (1-4 digit year, 1-2 digit
month and day), validated as a calendar date. Any other shape fails (in
Python: raises ValueError, caught at line 90). -/
def strptimeYMD (s : String) : Option PyDate :=
  match splitOnChar '-' s.data with
  | [y, m, d] =>
    if 1 ≤ y.length && y.length ≤ 4 && 1 ≤ m.length && m.length ≤ 2
        && 1 ≤ d.length && d.length ≤ 2
        && allDigits y && allDigits m && allDigits d then
      let yn := digitsToNat y
      let mn := digitsToNat m
      let dn := digitsToNat d
      if validDate yn mn dn then some ⟨yn, mn, dn⟩ else none
    else none
  | _ => none

/-- views.py lines 81-91: the ordered date fallback chain. A falsy raw date
(null or empty) leaves the date of the just-created row at its model default
(unset); otherwise fromisoformat is attempted and its date component taken;
on failure strptime YYYY-MM-DD is attempted; on failure the date is set to
None. -/
def parseDate (raw : Option String) : Option PyDate :=
  match raw with
  | none => none
  | some s =>
    if s = "" then none
    else
      match fromisoformat s with
      | some dt => some dt.date
      | none =>
        match strptimeYMD s with
        | some d => some d
        | none => none

/-! ## Exception-level embedding of the date chain

The Python parsers raise ValueError on failure and the view catches it.
To state that normalization never raises, the same chain is embedded in
the Except monad with the raising and catching explicit. -/

inductive PyErr where
  | valueError : PyErr
deriving DecidableEq, Repr

/-- fromisoformat as the raising stdlib call: failure is a ValueError. -/
def fromisoformatE (s : String) : Except PyErr PyDateTime :=
  match fromisoformat s with
  | some dt => Except.ok dt
  | none => Except.error PyErr.valueError

/-- strptime as the raising stdlib call: failure is a ValueError. -/
def strptimeE (s : String) : Except PyErr PyDate :=
  match strptimeYMD s with
  | some d => Except.ok d
  | none => Except.error PyErr.valueError

/-- A Python `try: body except ValueError: handler` block. -/
def tryExceptValueError (body handler : Except PyErr α) : Except PyErr α :=
  match body with
  | Except.ok a => Except.ok a
  | Except.error PyErr.valueError => handler

/-- views.py lines 81-91 with the exception flow explicit: the outer try
attempts fromisoformat, its ValueError handler attempts strptime, and the
inner handler assigns None. -/
def parseDateE (raw : Option String) : Except PyErr (Option PyDate) :=
  match raw with
  | none => Except.ok none
  | some s =>
    if s = "" then Except.ok none
    else
      tryExceptValueError
        ((fromisoformatE s).map (fun dt => some dt.date))
        (tryExceptValueError
          ((strptimeE s).map (fun d => some d))
          (Except.ok none))

lemma parseDateE_eq_ok (raw : Option String) :
    parseDateE raw = Except.ok (parseDate raw) := by
  cases raw with
  | none => rfl
  | some s =>
    simp only [parseDateE, parseDate]
    split_ifs
    · rfl
    · simp only [fromisoformatE, strptimeE]
      cases fromisoformat s with
      | some dt => rfl
      | none =>
        cases strptimeYMD s with
        | some d => rfl
        | none => rfl

/-! ## Data model (the raw payload and the rows the view writes) -/

/-- One raw item record of the items array of the payload. Every field is
nullable untrusted input. -/
structure RawItem where
  description : Option String := none
  quantity : Option ℚ := none
  unit_price : Option ℚ := none
  line_total : Option ℚ := none
deriving DecidableEq, Repr

/-- The untyped payload returned by the external extraction capability,
as the view reads it with data.get: every key may be absent or null. -/
structure RawExtraction where
  store_name : Option String := none
  store_address : Option String := none
  store_tax_id : Option String := none
  date : Option String := none
  payment_method : Option String := none
  subtotal_amount : Option ℚ := none
  tax_amount : Option ℚ := none
  total_amount : Option ℚ := none
  currency : Option String := none
  category : Option String := none
  items : Option (List RawItem) := none
  confidence_score : Option ℚ := none
deriving DecidableEq, Repr

/-- A stored ReceiptItem row (views.py lines 106-112). -/
structure LineItem where
  description : String
  quantity : ℚ
  unit_price : ℚ
  line_total : ℚ
deriving DecidableEq, Repr

/-- The normalized receipt fields the view assigns before saving
(views.py lines 75-93) together with its stored items. -/
structure CanonicalReceipt where
  store_name : Option String
  category : String
  total_amount : Option ℚ
  tax_amount : ℚ
  currency : String
  date : Option PyDate
  items : List LineItem
deriving DecidableEq, Repr

/-! ## Item normalization (views.py lines 96-112) -/

/-- views.py lines 97-112: the item loop. An item whose description is
falsy (null or empty) is skipped; a kept item gets quantity through
Python or-defaulting to 1, and unit_price and line_total through an
explicit is-not-None test defaulting to 0. -/
def normalizeItems : List RawItem → List LineItem
  | [] => []
  | it :: rest =>
    match it.description with
    | none => normalizeItems rest
    | some d =>
      if d = "" then normalizeItems rest
      else
        { description := d
        , quantity := pyOrQ it.quantity 1
        , unit_price := it.unit_price.getD 0
        , line_total := it.line_total.getD 0 } :: normalizeItems rest

/-- The keep test of the loop: `if not description: continue`. -/
def keepItem (it : RawItem) : Bool :=
  match it.description with
  | none => false
  | some d => d != ""

/-- The mapping the loop applies to a kept item. -/
def normalizeKeptItem (it : RawItem) : LineItem :=
  { description := (it.description).getD ""
  , quantity := pyOrQ it.quantity 1
  , unit_price := it.unit_price.getD 0
  , line_total := it.line_total.getD 0 }

lemma normalizeItems_eq_filter_map (l : List RawItem) :
    normalizeItems l = (l.filter keepItem).map normalizeKeptItem := by
  induction l with
  | nil => rfl
  | cons it rest ih =>
    cases hd : it.description with
    | none =>
      simp only [normalizeItems, hd, List.filter, keepItem, hd]
      simpa [keepItem, hd] using ih
    | some d =>
      by_cases hde : d = ""
      · subst hde
        simp [normalizeItems, hd, List.filter_cons, keepItem, ih]
      · simp [normalizeItems, hd, hde, List.filter_cons, keepItem,
          normalizeKeptItem, ih]

lemma normalizeItems_desc_ne_empty (l : List RawItem) :
    ∀ li ∈ normalizeItems l, li.description ≠ "" := by
  intro li h
  rw [normalizeItems_eq_filter_map] at h
  rcases List.mem_map.mp h with ⟨it, hit, rfl⟩
  have hk : keepItem it = true := List.of_mem_filter hit
  unfold keepItem at hk
  cases hd : it.description with
  | none => rw [hd] at hk; cases hk
  | some d =>
    rw [hd] at hk
    simp only [normalizeKeptItem, hd, Option.getD_some]
    exact bne_iff_ne.mp hk

/-! ## Receipt-level normalization (views.py lines 75-112) -/

/-- views.py lines 75-112 as a pure mapping from the payload to the
normalized receipt fields and items: store_name and total_amount copied
as-is, category or-defaulted to the empty string, tax_amount or-defaulted
to 0, currency or-defaulted to USD, date through the fallback chain, items
through the item loop (items key or-defaulted to the empty list). -/
def normalize (raw : RawExtraction) : CanonicalReceipt :=
  { store_name := raw.store_name
  , category := pyOrStr raw.category ""
  , total_amount := raw.total_amount
  , tax_amount := pyOrQ raw.tax_amount 0
  , currency := pyOrStr raw.currency "USD"
  , date := parseDate raw.date
  , items := normalizeItems (pyOrList raw.items) }

/-- The same mapping in the Except monad, with the ValueError flow of the
date chain explicit: the only raising calls inside the normalization block
are the two date parses, both wrapped in try/except. -/
def normalizeE (raw : RawExtraction) : Except PyErr CanonicalReceipt := do
  let d ← parseDateE raw.date
  Except.ok
    { store_name := raw.store_name
    , category := pyOrStr raw.category ""
    , total_amount := raw.total_amount
    , tax_amount := pyOrQ raw.tax_amount 0
    , currency := pyOrStr raw.currency "USD"
    , date := d
    , items := normalizeItems (pyOrList raw.items) }

/-! ## Tail of extract_receipt_data (services.py lines 212-214) -/

/-- services.py lines 212-214: after parsing the model response, the
extractor overwrites the currency key with the normalized currency and
returns the payload. -/
def extractFinalize (d : RawExtraction) : RawExtraction :=
  { d with currency := some (normalize_currency d.currency) }

/-! ## Batch upload loop (views.py lines 45-132)

One upload is an image file together with the outcome of the external
extraction call made for it: the call is the only external effect inside
the per-item try block, so its outcome (a payload, or a raised exception
message) is the input that decides the branch taken. -/

/-- Outcome of the extract_receipt_data call for one file. -/
inductive ExtractOutcome where
  | ok : RawExtraction → ExtractOutcome
  | raised : String → ExtractOutcome
deriving DecidableEq, Repr

/-- One uploaded file and the outcome of its extraction call. -/
structure Upload where
  name : String
  outcome : ExtractOutcome
deriving DecidableEq, Repr

/-- One error descriptor appended at views.py lines 116-122. -/
structure UploadError where
  file : String
  error : String
  receipt_id : Nat
deriving DecidableEq, Repr

/-- A persisted Receipt row with its ReceiptItem rows as the serializer
nests them. -/
structure StoredReceipt where
  id : Nat
  file : String
  store_name : Option String
  date : Option PyDate
  category : String
  total_amount : Option ℚ
  tax_amount : ℚ
  currency : String
  items : List LineItem
deriving DecidableEq, Repr

/-- The row written by Receipt.objects.create(file=upload) at views.py
line 66: only the file is set; every extracted field carries its model
default from models.py (store_name null, date null, category empty,
total_amount null, tax_amount 0, currency PHP, no items). -/
def createdReceipt (id : Nat) (file : String) : StoredReceipt :=
  { id := id
  , file := file
  , store_name := none
  , date := none
  , category := ""
  , total_amount := none
  , tax_amount := 0
  , currency := "PHP"
  , items := [] }

/-- Assign the normalized fields onto an existing row (views.py lines
75-93 and the item creation of lines 96-112). -/
def applyCanonical (r : StoredReceipt) (c : CanonicalReceipt) : StoredReceipt :=
  { r with
    store_name := c.store_name
  , date := c.date
  , category := c.category
  , total_amount := c.total_amount
  , tax_amount := c.tax_amount
  , currency := c.currency
  , items := c.items }

/-- Database side effects of the loop body, in program order. -/
inductive Event where
  | createReceipt : Nat → Event
  | extractCall : String → Event
  | saveReceipt : Nat → Event
  | createItem : Nat → LineItem → Event
deriving DecidableEq, Repr

/-- views.py lines 64-124, one iteration: the Receipt row is created
first; then the extraction call runs. On success the normalized fields
are assigned, the row saved and the item rows created; on an exception
the loop records an error descriptor carrying the file name and the id
of the already-created row. Either way the row is appended to the
response list. The result is the persisted row, the optional error
descriptor, and the trace of database effects in order. -/
def processUpload (nextId : Nat) (u : Upload) :
    StoredReceipt × Option UploadError × List Event :=
  let receipt := createdReceipt nextId u.name
  match u.outcome with
  | ExtractOutcome.ok raw =>
    let c := normalize raw
    (applyCanonical receipt c, none,
      [Event.createReceipt nextId, Event.extractCall u.name,
       Event.saveReceipt nextId]
        ++ c.items.map (Event.createItem nextId))
  | ExtractOutcome.raised msg =>
    (receipt, some { file := u.name, error := msg, receipt_id := nextId },
      [Event.createReceipt nextId, Event.extractCall u.name])

/-- views.py lines 61-130: the loop over all files. Row ids are assigned
sequentially from nextId, each row is appended to the receipts list
whether or not its extraction succeeded, and error descriptors accumulate
in loop order. -/
def processBatch (nextId : Nat) : List Upload → List StoredReceipt × List UploadError
  | [] => ([], [])
  | u :: rest =>
    let p := processUpload nextId u
    let q := processBatch (nextId + 1) rest
    (p.1 :: q.1, p.2.1.toList ++ q.2)

lemma processBatch_nil (n : Nat) : processBatch n [] = ([], []) := rfl

lemma processBatch_cons (n : Nat) (u : Upload) (rest : List Upload) :
    processBatch n (u :: rest) =
      ((processUpload n u).1 :: (processBatch (n + 1) rest).1,
       (processUpload n u).2.1.toList ++ (processBatch (n + 1) rest).2) := rfl

/-! ## Component lemmas shared by the claim theorems -/

lemma mem_allowed_not_mem_mistakes {c : String} (h : c ∈ ALLOWED) :
    c ∉ MISTAKES := by
  fin_cases h <;> decide

lemma processUpload_fst_ok {u : Upload} {raw : RawExtraction} (m : Nat)
    (h : u.outcome = ExtractOutcome.ok raw) :
    (processUpload m u).1 = applyCanonical (createdReceipt m u.name) (normalize raw) := by
  simp [processUpload, h]

lemma processUpload_err_ok {u : Upload} {raw : RawExtraction} (m : Nat)
    (h : u.outcome = ExtractOutcome.ok raw) :
    (processUpload m u).2.1 = none := by
  simp [processUpload, h]

lemma processUpload_fst_raised {u : Upload} {msg : String} (m : Nat)
    (h : u.outcome = ExtractOutcome.raised msg) :
    (processUpload m u).1 = createdReceipt m u.name := by
  simp [processUpload, h]

lemma processUpload_err_raised {u : Upload} {msg : String} (m : Nat)
    (h : u.outcome = ExtractOutcome.raised msg) :
    (processUpload m u).2.1 = some { file := u.name, error := msg, receipt_id := m } := by
  simp [processUpload, h]

lemma processUpload_trace_raised {u : Upload} {msg : String} (m : Nat)
    (h : u.outcome = ExtractOutcome.raised msg) :
    (processUpload m u).2.2 = [Event.createReceipt m, Event.extractCall u.name] := by
  simp [processUpload, h]

/-! ## Claim theorems -/

/-- Claim C3: for every raw currency input (any string, or null/absent),
normalize_currency returns exactly one of the five codes PHP, USD, EUR,
JPY, GBP; it never returns the empty string (and, by its return type, never
null), so the normalized currency invariant holds. -/
theorem currency_totality (cur : Option String) :
    normalize_currency cur ∈ ALLOWED ∧ normalize_currency cur ≠ "" :=
  ⟨normalize_currency_mem cur, normalize_currency_ne_empty cur⟩

/-- Claim C3 witness: the totality theorem instantiated at a junk input. -/
theorem currency_totality_witness :
    normalize_currency (some "doge") ∈ ALLOWED ∧ normalize_currency (some "doge") ≠ "" :=
  currency_totality (some "doge")

/-- Claim C6: normalize_currency maps null, the empty string, peso, a
padded lowercase php, PHPH and XYZ all to PHP; maps usd, EUR and Gbp to
USD, EUR and GBP; and in general a case-insensitive whitespace-trimmed
exact match of an allowed code passes through while everything else falls
back to PHP. -/
theorem currency_default_safety :
    normalize_currency none = "PHP"
    ∧ normalize_currency (some "") = "PHP"
    ∧ normalize_currency (some "peso") = "PHP"
    ∧ normalize_currency (some " php ") = "PHP"
    ∧ normalize_currency (some "PHPH") = "PHP"
    ∧ normalize_currency (some "XYZ") = "PHP"
    ∧ normalize_currency (some "usd") = "USD"
    ∧ normalize_currency (some "EUR") = "EUR"
    ∧ normalize_currency (some "Gbp") = "GBP"
    ∧ (∀ s : String, pyStrip (pyUpper s) ∈ ALLOWED →
        normalize_currency (some s) = pyStrip (pyUpper s))
    ∧ (∀ s : String, pyStrip (pyUpper s) ∉ ALLOWED →
        normalize_currency (some s) = "PHP") := by
  refine ⟨by decide, by decide, by decide, by decide, by decide, by decide,
    by decide, by decide, by decide, ?_, ?_⟩
  · intro s hs
    have hne : s ≠ "" := by
      intro he
      subst he
      revert hs
      decide
    have hnm : pyStrip (pyUpper s) ∉ MISTAKES := mem_allowed_not_mem_mistakes hs
    simp only [normalize_currency]
    rw [if_neg hne, if_neg hnm, if_pos hs]
  · intro s hs
    by_cases hne : s = ""
    · subst hne; rfl
    · simp only [normalize_currency]
      rw [if_neg hne]
      by_cases hm : pyStrip (pyUpper s) ∈ MISTAKES
      · rw [if_pos hm]
      · rw [if_neg hm, if_neg hs]

/-- Claim C6 witness: the pass-through conjunct instantiated at usd. -/
theorem currency_default_safety_witness :
    normalize_currency (some "usd") = pyStrip (pyUpper "usd") :=
  currency_default_safety.2.2.2.2.2.2.2.2.2.1 "usd" (by decide)

/-- Claim C2 counterexample: it is not true that normalization preserves
every non-null quantity. The item loop uses Python or-defaulting, so the
item with description Coffee and quantity 0 is stored with quantity 1,
not 0: the claimed mapping, which preserves non-null quantities, disagrees
with normalizeItems at that input. -/
theorem item_defaulting_counterexample :
    ¬ (∀ l : List RawItem,
        normalizeItems l = (l.filter keepItem).map
          (fun it =>
            { description := (it.description).getD ""
            , quantity := match it.quantity with | none => 1 | some q => q
            , unit_price := match it.unit_price with | none => 0 | some q => q
            , line_total := match it.line_total with | none => 0 | some q => q })) := by
  intro h
  exact absurd
    (h [{ description := some "Coffee", quantity := some 0,
          unit_price := some 3, line_total := some 0 }])
    (by decide)

/-- Claim C2 amended: for every kept item, quantity defaults to 1 when the
raw quantity is null/missing or zero (Python falsiness) and is otherwise
preserved; unit_price defaults to 0 exactly when null/missing and is
otherwise preserved, and likewise line_total; the all-null Coffee item
normalizes to description Coffee, quantity 1, unit_price 0, line_total 0. -/
theorem item_defaulting_amended :
    (∀ (d : String) (q u t : Option ℚ), d ≠ "" →
      normalizeItems [{ description := some d, quantity := q,
                        unit_price := u, line_total := t }] =
        [{ description := d
         , quantity := match q with | none => 1 | some x => if x = 0 then 1 else x
         , unit_price := match u with | none => 0 | some x => x
         , line_total := match t with | none => 0 | some x => x }])
    ∧ normalizeItems [{ description := some "Coffee", quantity := none,
                        unit_price := none, line_total := none }] =
        [{ description := "Coffee", quantity := 1, unit_price := 0, line_total := 0 }] := by
  constructor
  · intro d q u t hd
    cases q <;> cases u <;> cases t <;> simp [normalizeItems, hd, pyOrQ, Option.getD]
  · decide

/-- Claim C2 witness: the amended defaulting rule instantiated at a
zero-quantity item. -/
theorem item_defaulting_amended_witness :
    normalizeItems [{ description := some "Tea", quantity := some 0,
                      unit_price := some 5, line_total := none }] =
      [{ description := "Tea", quantity := 1, unit_price := 5, line_total := 0 }] := by
  have h := item_defaulting_amended.1 "Tea" (some 0) (some 5) none (by decide)
  simpa using h

/-- Claim C7: the normalized item sequence is exactly the raw sequence with
the items whose description is null or empty removed, in the original
order, each kept item carrying its defaulted fields; and every stored
line item has a non-empty description. -/
theorem item_filtering (l : List RawItem) :
    normalizeItems l = (l.filter keepItem).map normalizeKeptItem
    ∧ ∀ li ∈ normalizeItems l, li.description ≠ "" :=
  ⟨normalizeItems_eq_filter_map l, normalizeItems_desc_ne_empty l⟩

/-- Claim C7 witness: the filtering theorem instantiated at a three-item
sequence whose second and third items are dropped, with the non-empty
description fact discharged for the surviving item. -/
theorem item_filtering_witness :
    (normalizeItems
        [{ description := some "Coffee", quantity := some 1,
           unit_price := some 2, line_total := some 2 },
         { description := none, quantity := some 1,
           unit_price := none, line_total := none },
         { description := some "", quantity := some 3,
           unit_price := some 4, line_total := some 12 }] =
      (([{ description := some "Coffee", quantity := some 1,
           unit_price := some 2, line_total := some 2 },
         { description := none, quantity := some 1,
           unit_price := none, line_total := none },
         { description := some "", quantity := some 3,
           unit_price := some 4, line_total := some 12 }].filter
          keepItem).map normalizeKeptItem))
    ∧ ({ description := "Coffee", quantity := 1, unit_price := 2, line_total := 2 }
        : LineItem).description ≠ "" :=
  ⟨(item_filtering _).1,
   (item_filtering
      [{ description := some "Coffee", quantity := some 1,
         unit_price := some 2, line_total := some 2 },
       { description := none, quantity := some 1,
         unit_price := none, line_total := none },
       { description := some "", quantity := some 3,
         unit_price := some 4, line_total := some 12 }]).2
     { description := "Coffee", quantity := 1, unit_price := 2, line_total := 2 }
     (by decide)⟩

/-- Claim C8: a null or missing tax_amount normalizes to exactly 0 (and the
normalized tax field is never null, being a plain rational); store_name and
total_amount are copied as-is from the raw payload, including null, with no
default substituted for total_amount. -/
theorem tax_default_and_passthrough (raw : RawExtraction) :
    (raw.tax_amount = none → (normalize raw).tax_amount = 0)
    ∧ (normalize raw).store_name = raw.store_name
    ∧ (normalize raw).total_amount = raw.total_amount := by
  refine ⟨fun h => ?_, rfl, rfl⟩
  simp [normalize, pyOrQ, h]

/-- Claim C8 witness: the tax-default theorem instantiated at a payload
with a missing tax_amount, a present store name, and a null total. -/
theorem tax_default_and_passthrough_witness :
    (normalize { store_name := some "Aling Nena Store", tax_amount := none,
                 total_amount := none }).tax_amount = 0
    ∧ (normalize { store_name := some "Aling Nena Store", tax_amount := none,
                   total_amount := none }).store_name =
        ({ store_name := some "Aling Nena Store", tax_amount := none,
           total_amount := none } : RawExtraction).store_name
    ∧ (normalize { store_name := some "Aling Nena Store", tax_amount := none,
                   total_amount := none }).total_amount =
        ({ store_name := some "Aling Nena Store", tax_amount := none,
           total_amount := none } : RawExtraction).total_amount :=
  ⟨(tax_default_and_passthrough _).1 rfl,
   (tax_default_and_passthrough _).2.1,
   (tax_default_and_passthrough _).2.2⟩

/-- Claim C5: the date normalization follows the exact ordered fallback:
null leaves the date unset; otherwise the full ISO date-time parse is
attempted and its date component taken; on failure the strict YYYY-MM-DD
parse is attempted; on failure the date is left unset without raising. The
listed examples evaluate accordingly, and the unparseable example raises
no error in the exception-level embedding. -/
theorem date_fallback_chain :
    parseDate none = none
    ∧ (∀ (s : String) (dt : PyDateTime), fromisoformat s = some dt →
        parseDate (some s) = some dt.date)
    ∧ (∀ (s : String) (d : PyDate), fromisoformat s = none → strptimeYMD s = some d →
        parseDate (some s) = some d)
    ∧ (∀ s : String, fromisoformat s = none → strptimeYMD s = none →
        parseDate (some s) = none)
    ∧ parseDate (some "2024-03-15T00:00:00") = some ⟨2024, 3, 15⟩
    ∧ parseDate (some "2024-03-15") = some ⟨2024, 3, 15⟩
    ∧ parseDate (some "March 15") = none
    ∧ parseDateE (some "March 15") = Except.ok none := by
  refine ⟨rfl, ?_, ?_, ?_, by decide, by decide, by decide, rfl⟩
  · intro s dt h
    have hne : s ≠ "" := by
      intro he
      subst he
      rw [show fromisoformat "" = none from rfl] at h
      exact Option.noConfusion h
    simp [parseDate, hne, h]
  · intro s d h1 h2
    have hne : s ≠ "" := by
      intro he
      subst he
      rw [show strptimeYMD "" = none from rfl] at h2
      exact Option.noConfusion h2
    simp [parseDate, hne, h1, h2]
  · intro s h1 h2
    by_cases hne : s = ""
    · subst hne; rfl
    · simp [parseDate, hne, h1, h2]

/-- Claim C5 witness: the ISO branch of the chain instantiated at the
date-only string, with the parse hypothesis discharged by evaluation. -/
theorem date_fallback_chain_witness :
    parseDate (some "2024-03-15") =
      some ({ date := { year := 2024, month := 3, day := 15 },
              hour := 0, minute := 0, second := 0 } : PyDateTime).date :=
  date_fallback_chain.2.1 "2024-03-15"
    { date := { year := 2024, month := 3, day := 15 },
      hour := 0, minute := 0, second := 0 }
    (by decide)

/-- Claim C4: normalization is total over well-formed raw extractions. In
the exception-level embedding, where the raising stdlib date parses and the
try/except blocks around them are explicit, normalization always returns a
value, never an error, and that value equals the pure normalization. -/
theorem normalizer_total (raw : RawExtraction) :
    normalizeE raw = Except.ok (normalize raw) := by
  unfold normalizeE
  rw [parseDateE_eq_ok]
  rfl

/-- Claim C1: in a batch of three images where the second extraction call
fails, the response carries the three rows with exactly the first and
third normalized, the error list is exactly one descriptor naming the
second file and its row id, exactly two of the returned rows are not named
by any error descriptor, the first and third rows equal what processing
those uploads alone produces, and in general each upload yields an error
descriptor exactly when its extraction call raised. -/
theorem batch_independence (startId : Nat) (u1 u2 u3 : Upload)
    (r1 r3 : RawExtraction) (msg : String)
    (h1 : u1.outcome = ExtractOutcome.ok r1)
    (h2 : u2.outcome = ExtractOutcome.raised msg)
    (h3 : u3.outcome = ExtractOutcome.ok r3) :
    (processBatch startId [u1, u2, u3]).1 =
      [applyCanonical (createdReceipt startId u1.name) (normalize r1),
       createdReceipt (startId + 1) u2.name,
       applyCanonical (createdReceipt (startId + 2) u3.name) (normalize r3)]
    ∧ (processBatch startId [u1, u2, u3]).2 =
      [{ file := u2.name, error := msg, receipt_id := startId + 1 }]
    ∧ ((processBatch startId [u1, u2, u3]).1.filter
        (fun r => (processBatch startId [u1, u2, u3]).2.all
          (fun e => e.receipt_id != r.id))).length = 2
    ∧ (processBatch startId [u1, u2, u3]).1.get? 0 = some (processUpload startId u1).1
    ∧ (processBatch startId [u1, u2, u3]).1.get? 2 = some (processUpload (startId + 2) u3).1
    ∧ (∀ (m : Nat) (u : Upload) (raw : RawExtraction),
        u.outcome = ExtractOutcome.ok raw → (processUpload m u).2.1 = none)
    ∧ (∀ (m : Nat) (u : Upload) (emsg : String),
        u.outcome = ExtractOutcome.raised emsg →
          (processUpload m u).2.1 =
            some { file := u.name, error := emsg, receipt_id := m }) := by
  have hrs : (processBatch startId [u1, u2, u3]).1 =
      [applyCanonical (createdReceipt startId u1.name) (normalize r1),
       createdReceipt (startId + 1) u2.name,
       applyCanonical (createdReceipt (startId + 2) u3.name) (normalize r3)] := by
    simp [processBatch_cons, processBatch_nil,
      processUpload_fst_ok _ h1, processUpload_fst_raised _ h2,
      processUpload_fst_ok _ h3]
  have hes : (processBatch startId [u1, u2, u3]).2 =
      [{ file := u2.name, error := msg, receipt_id := startId + 1 }] := by
    simp [processBatch_cons, processBatch_nil,
      processUpload_err_ok _ h1, processUpload_err_raised _ h2,
      processUpload_err_ok _ h3]
  refine ⟨hrs, hes, ?_, ?_, ?_, ?_, ?_⟩
  · rw [hrs, hes]
    have t1 : ((startId + 1 : Nat) != startId) = true := by
      simp [bne_iff_ne]
    have t2 : ((startId + 1 : Nat) != (startId + 1)) = false := by
      simp
    have t3 : ((startId + 1 : Nat) != (startId + 2)) = true := by
      simp [bne_iff_ne]
    simp [List.filter, List.all, applyCanonical, createdReceipt, t1, t2, t3]
  · rw [hrs, processUpload_fst_ok _ h1]; rfl
  · rw [hrs, processUpload_fst_ok _ h3]; rfl
  · intro m u raw h
    exact processUpload_err_ok m h
  · intro m u emsg h
    exact processUpload_err_raised m h

/-- Claim C1 witness: the batch theorem instantiated at a concrete batch
whose second extraction raises. -/
theorem batch_independence_witness :
    (processBatch 1
      [{ name := "a.jpg", outcome := ExtractOutcome.ok
           { store_name := some "Shop A", total_amount := some 100,
             currency := some "PHP" } },
       { name := "b.jpg", outcome := ExtractOutcome.raised "boom" },
       { name := "c.jpg", outcome := ExtractOutcome.ok
           { store_name := some "Shop C", total_amount := some 55,
             currency := some "USD" } }]).2 =
      [{ file := "b.jpg", error := "boom", receipt_id := 2 }] :=
  (batch_independence 1
    { name := "a.jpg", outcome := ExtractOutcome.ok
        { store_name := some "Shop A", total_amount := some 100,
          currency := some "PHP" } }
    { name := "b.jpg", outcome := ExtractOutcome.raised "boom" }
    { name := "c.jpg", outcome := ExtractOutcome.ok
        { store_name := some "Shop C", total_amount := some 55,
          currency := some "USD" } }
    { store_name := some "Shop A", total_amount := some 100,
      currency := some "PHP" }
    { store_name := some "Shop C", total_amount := some 55,
      currency := some "USD" }
    "boom" rfl rfl rfl).2.1

/-- Claim C9: processing is not atomic on failure. The row is created
before the extraction call (visible in the effect trace), and when the
call raises, the already-created row, with its file set and every
extracted field at its model default, is the persisted result, its id is
named by the error descriptor, and at any batch position the row appears
in the response receipts list while the descriptor appears in the error
list. -/
theorem upload_failure_not_atomic (n : Nat) (u : Upload) (msg : String)
    (h : u.outcome = ExtractOutcome.raised msg) :
    (processUpload n u).1 = createdReceipt n u.name
    ∧ (processUpload n u).2.1 =
        some { file := u.name, error := msg, receipt_id := n }
    ∧ (processUpload n u).2.2 = [Event.createReceipt n, Event.extractCall u.name]
    ∧ ∀ (pre post : List Upload),
        createdReceipt (n + pre.length) u.name ∈ (processBatch n (pre ++ u :: post)).1
        ∧ ({ file := u.name, error := msg, receipt_id := n + pre.length } : UploadError)
            ∈ (processBatch n (pre ++ u :: post)).2 := by
  refine ⟨processUpload_fst_raised n h, processUpload_err_raised n h,
    processUpload_trace_raised n h, ?_⟩
  intro pre post
  induction pre generalizing n with
  | nil =>
    constructor
    · simp [processBatch_cons, processUpload_fst_raised n h]
    · simp [processBatch_cons, processUpload_err_raised n h]
  | cons v pre ih =>
    obtain ⟨ihr, ihe⟩ := ih (n + 1)
    have harith : n + 1 + pre.length = n + (v :: pre).length := by
      simp [List.length_cons]
      omega
    rw [harith] at ihr ihe
    constructor
    · rw [List.cons_append, processBatch_cons]
      exact List.mem_cons_of_mem _ ihr
    · rw [List.cons_append, processBatch_cons]
      exact List.mem_append_right _ ihe

/-- Claim C9 witness: the non-atomicity theorem instantiated at a single
failing upload placed after one successful upload. -/
theorem upload_failure_not_atomic_witness :
    (processUpload 7 { name := "b.jpg", outcome := ExtractOutcome.raised "boom" }).1 =
      createdReceipt 7 "b.jpg"
    ∧ createdReceipt (7 + 1) "b.jpg" ∈
        (processBatch 7
          [{ name := "a.jpg", outcome := ExtractOutcome.ok {} },
           { name := "b.jpg", outcome := ExtractOutcome.raised "boom" }]).1 :=
  ⟨(upload_failure_not_atomic 7
      { name := "b.jpg", outcome := ExtractOutcome.raised "boom" } "boom" rfl).1,
   (((upload_failure_not_atomic 7
      { name := "b.jpg", outcome := ExtractOutcome.raised "boom" } "boom" rfl).2.2.2
      [{ name := "a.jpg", outcome := ExtractOutcome.ok {} }] []).1)⟩

/-- Claim C10: the extractor always returns its payload with the currency
key set to the normalize_currency output, which is an allowed code and in
particular neither absent nor empty, so the or-USD fallback in the view is
not taken: the stored currency of a successfully extracted image is
exactly the normalize_currency output. -/
theorem extract_currency_fallback_unreachable (d : RawExtraction) :
    (extractFinalize d).currency = some (normalize_currency d.currency)
    ∧ (extractFinalize d).currency ≠ none
    ∧ (extractFinalize d).currency ≠ some ""
    ∧ pyOrStr (extractFinalize d).currency "USD" = normalize_currency d.currency
    ∧ (normalize (extractFinalize d)).currency = normalize_currency d.currency
    ∧ normalize_currency d.currency ∈ ALLOWED
    ∧ ∀ (m : Nat) (file : String),
        (processUpload m
          { name := file, outcome := ExtractOutcome.ok (extractFinalize d) }).1.currency =
          normalize_currency d.currency := by
  have hne := normalize_currency_ne_empty d.currency
  refine ⟨rfl, by simp [extractFinalize], by simp [extractFinalize, hne],
    by simp [extractFinalize, pyOrStr, hne],
    by simp [normalize, extractFinalize, pyOrStr, hne],
    normalize_currency_mem d.currency, ?_⟩
  intro m file
  simp [processUpload, applyCanonical, normalize, extractFinalize, pyOrStr, hne]

/-- Claim C10 witness: the fallback-unreachable theorem instantiated at a
payload whose raw currency is unrecognized. -/
theorem extract_currency_fallback_unreachable_witness :
    pyOrStr (extractFinalize { currency := some "XYZ" }).currency "USD" =
      normalize_currency ({ currency := some "XYZ" } : RawExtraction).currency :=
  (extract_currency_fallback_unreachable { currency := some "XYZ" }).2.2.2.1

end SnapSpend
